import Mathlib

/-
Verification of the appointment scheduling core of the Hospital_Management
repository (src/app.py, src/models.py).  The data model and the operations
below are shallow embeddings of the Python source: dates and times are the
strings the source stores, appointment statuses are an enumeration of the
status strings the source writes, and every route handler that mutates the
record store becomes a function from a store to a result together with the
next store.  SQLAlchemy commit failures (unique-constraint violations) are
modelled as explicit error results that leave the store unchanged, because
the source wraps every commit in try/except with rollback.
-/

namespace HMS

/-- Appointment status strings used by src/app.py: the source writes the
literals Booked, Pending, Rescheduled, Completed, Cancelled into the
Appointment.status column (src/models.py line 55). -/
inductive Status
  | Booked
  | Pending
  | Rescheduled
  | Completed
  | Cancelled
deriving DecidableEq, Repr

/-- Row of the appointment table (src/models.py lines 48-60). -/
structure Appt where
  id : Nat
  patient_id : Nat
  doctor_id : Nat
  date : String
  time : String
  status : Status
deriving DecidableEq, Repr

/-- Row of the doctor_availability table (src/models.py lines 70-78). -/
structure Avail where
  id : Nat
  doctor_id : Nat
  date : String
  start_time : String
  end_time : String
deriving DecidableEq, Repr

/-- Row of the treatment table (src/models.py lines 62-68); appointment_id
carries a unique constraint. -/
structure Treatment where
  id : Nat
  appointment_id : Nat
  diagnosis : String
  prescription : String
  notes : String
deriving DecidableEq, Repr

/-- Row of the medical_record table (src/models.py lines 80-96);
appointment_id carries a unique constraint. -/
structure MedicalRecord where
  id : Nat
  appointment_id : Nat
  patient_id : Nat
  doctor_id : Nat
  diagnosis : String
  notes : String
  consultation_date : String
deriving DecidableEq, Repr

/-- The record store: the four tables the scheduling core reads and
writes. -/
structure Store where
  appts : List Appt
  avails : List Avail
  treatments : List Treatment
  records : List MedicalRecord
deriving DecidableEq, Repr

/-- The store holding no rows at all. -/
def emptyStore : Store := ⟨[], [], [], []⟩

/-- Numeric value of a decimal digit character. -/
def digitVal (c : Char) : Nat := c.toNat - 48

/-- Decimal value of a digit run, as strptime accumulates it. -/
def digitsVal (cs : List Char) : Nat :=
  cs.foldl (fun n c => 10 * n + digitVal c) 0

/-- Parses an HH:MM wall-clock string to minutes since midnight, exactly as
datetime.strptime(s, the format of hours and minutes) in generate_slots
(src/app.py line 51) accepts it: a run of one or two digits giving an hour
in 0..23, a single colon, a run of one or two digits giving a minute in
0..59, and nothing else; none models the ValueError strptime raises
otherwise. -/
def parseTime (s : String) : Option Nat :=
  match s.toList.span (fun c => c != ':') with
  | (hs, sep :: ms) =>
    if sep == ':' && !(ms.contains ':')
        && !hs.isEmpty && hs.length ≤ 2 && hs.all Char.isDigit
        && !ms.isEmpty && ms.length ≤ 2 && ms.all Char.isDigit then
      let h := digitsVal hs
      let m := digitsVal ms
      if h ≤ 23 && m ≤ 59 then some (60 * h + m) else none
    else none
  | (_, []) => none

/-- Formats minutes back to an HH:MM string as strftime does on the datetime
the loop reached: the day component is dropped, so the time-of-day is taken
modulo 24 hours, and hour and minute are zero padded to two digits. -/
def formatTime (n : Nat) : String :=
  let t := n % 1440
  let h := t / 60
  let m := t % 60
  String.mk [Nat.digitChar (h / 10), Nat.digitChar (h % 10), ':',
             Nat.digitChar (m / 10), Nat.digitChar (m % 10)]

/-- Embeds the while loop of generate_slots (src/app.py lines 54-59) over
minutes since midnight: while current is below the end time, the current
time is appended and the interval is added.  Each iteration strictly
increases current by the interval, so the loop is a total function by
well-founded recursion on the difference to the end time under the
precondition that the interval is positive; the guard records that
precondition, and for a zero interval, where the Python loop would never
terminate, the embedding returns the empty list. -/
def generateSlotsLoop (cur e i : Nat) : List Nat :=
  if _h : 0 < i ∧ cur < e then
    cur :: generateSlotsLoop (cur + i) e i
  else
    []
termination_by e - cur
decreasing_by omega

/-- Embeds generate_slots (src/app.py lines 47-59): parse both HH:MM
strings, run the loop, format each produced minute value back to a string;
none models the ValueError strptime raises on a malformed time string. -/
def generate_slots (start_time_str end_time_str : String)
    (interval_minutes : Nat) : Option (List String) :=
  match parseTime start_time_str, parseTime end_time_str with
  | some s, some e => some ((generateSlotsLoop s e interval_minutes).map formatTime)
  | _, _ => none

/-- Predicate on an appointment row: it sits at the given
(doctor, date, time) triple, written with the boolean equalities the
SQLAlchemy filters compile to. -/
def apptAtTriple (did : Nat) (date time : String) (a : Appt) : Bool :=
  a.doctor_id == did && a.date == date && a.time == time

/-- The commit-time conflict query of book_appointment (src/app.py lines
500-505): some appointment for the triple has status Booked. -/
def hasBookedAt (s : Store) (did : Nat) (date time : String) : Bool :=
  s.appts.any (fun a => apptAtTriple did date time a && a.status == Status.Booked)

/-- The storage-level uniqueness guard of the appointment table
(src/models.py line 58): some appointment for the triple already exists,
whatever its status; a commit inserting a second row for the triple
violates the unique constraint on (doctor_id, date, time). -/
def anyApptAt (s : Store) (did : Nat) (date time : String) : Bool :=
  s.appts.any (apptAtTriple did date time)

/-- The strict occupying set used when listing bookable slots
(src/app.py lines 439-449): some appointment for the triple has status
Booked or Completed. -/
def occupiedStrict (s : Store) (did : Nat) (date time : String) : Bool :=
  s.appts.any (fun a => apptAtTriple did date time a &&
    (a.status == Status.Booked || a.status == Status.Completed))

/-- Next autoincrement id for the appointment table. -/
def nextApptId (s : Store) : Nat := (s.appts.map (fun a => a.id)).foldr max 0 + 1

/-- Next autoincrement id for the treatment table. -/
def nextTreatmentId (s : Store) : Nat :=
  (s.treatments.map (fun t => t.id)).foldr max 0 + 1

/-- Next autoincrement id for the medical_record table. -/
def nextRecordId (s : Store) : Nat :=
  (s.records.map (fun r => r.id)).foldr max 0 + 1

/-- Results a booking request can end in: the three flash-and-redirect
outcomes of book_appointment plus success. -/
inductive BookResult
  | success
  | validationError
  | conflictError
  | storeError
deriving DecidableEq, Repr

/-- Embeds book_appointment (src/app.py lines 486-526).  Absent form fields
are modelled as none and fail the all(...) validation.  The explicit
conflict re-check filters on status Booked only; when it passes but any
appointment row for the triple already exists, the insert violates the
unique constraint on (doctor_id, date, time) and the except branch rolls
the session back, so the store is unchanged and a generic error is
flashed, modelled as storeError.  Otherwise a new appointment with status
Booked is committed. -/
def book_appointment (s : Store) (patient_id : Nat) (doctor_id : Option Nat)
    (date time : Option String) : BookResult × Store :=
  match doctor_id, date, time with
  | some did, some d, some t =>
    if hasBookedAt s did d t then
      (BookResult.conflictError, s)
    else if anyApptAt s did d t then
      (BookResult.storeError, s)
    else
      (BookResult.success,
        { s with appts := s.appts ++
            [{ id := nextApptId s, patient_id := patient_id, doctor_id := did,
               date := d, time := t, status := Status.Booked }] })
  | _, _, _ => (BookResult.validationError, s)

/-- Sets the status of the appointment with the given primary key, the
single-row update both cancellation routes and both consultation routes
perform. -/
def setStatus (s : Store) (appt_id : Nat) (st : Status) : Store :=
  { s with appts := s.appts.map (fun a =>
      if a.id == appt_id then { a with status := st } else a) }

/-- Status of the appointment with the given primary key, if any. -/
def statusOf (s : Store) (appt_id : Nat) : Option Status :=
  (s.appts.find? (fun a => a.id == appt_id)).map (fun a => a.status)

/-- Results a cancellation request can end in. -/
inductive CancelResult
  | success
  | notFound
  | accessDenied
  | invalidStatus
deriving DecidableEq, Repr

/-- Embeds patient_cancel_appointment (src/app.py lines 530-551):
get_or_404 on the id, ownership check against the requesting patient, and
the transition to Cancelled only from status Booked or Rescheduled; any
other status only flashes a warning and leaves the row unchanged. -/
def patient_cancel_appointment (s : Store) (requester appt_id : Nat) :
    CancelResult × Store :=
  match s.appts.find? (fun a => a.id == appt_id) with
  | none => (CancelResult.notFound, s)
  | some a =>
    if a.patient_id != requester then
      (CancelResult.accessDenied, s)
    else if a.status == Status.Booked || a.status == Status.Rescheduled then
      (CancelResult.success, setStatus s appt_id Status.Cancelled)
    else
      (CancelResult.invalidStatus, s)

/-- Embeds admin_cancel_appointment (src/app.py lines 156-172): get_or_404
on the id and the transition to Cancelled only from status Booked; any
other status only flashes a warning and leaves the row unchanged. -/
def admin_cancel_appointment (s : Store) (appt_id : Nat) : CancelResult × Store :=
  match s.appts.find? (fun a => a.id == appt_id) with
  | none => (CancelResult.notFound, s)
  | some a =>
    if a.status == Status.Booked then
      (CancelResult.success, setStatus s appt_id Status.Cancelled)
    else
      (CancelResult.invalidStatus, s)

/-- Results a consultation route can end in. -/
inductive ConsultResult
  | success
  | notFound
  | accessDenied
  | invalidStatus
  | storeError
deriving DecidableEq, Repr

/-- Embeds the POST branch of complete_appointment (src/app.py lines
590-627): get_or_404 on the id, an ownership check against the doctor,
then the status is set to Completed with no check of the current status
and a treatment row is inserted.  The treatment table's unique constraint
on appointment_id makes the commit fail when a treatment for the
appointment already exists; the except branch rolls back, undoing the
status change too. -/
def complete_appointment (s : Store) (doctor_id appt_id : Nat)
    (diagnosis prescription notes : String) : ConsultResult × Store :=
  match s.appts.find? (fun a => a.id == appt_id) with
  | none => (ConsultResult.notFound, s)
  | some a =>
    if a.doctor_id != doctor_id then
      (ConsultResult.accessDenied, s)
    else if s.treatments.any (fun t => t.appointment_id == appt_id) then
      (ConsultResult.storeError, s)
    else
      let s1 := setStatus s appt_id Status.Completed
      (ConsultResult.success,
        { s1 with treatments := s1.treatments ++
            [{ id := nextTreatmentId s, appointment_id := appt_id,
               diagnosis := diagnosis, prescription := prescription,
               notes := notes }] })

/-- Embeds the POST branch of start_consultation (src/app.py lines
631-680): get_or_404 on the id, an ownership check against the doctor, a
status check admitting only Booked, Rescheduled or Pending, then the
status is set to Completed and a medical record is inserted.  The medical
record table's unique constraint on appointment_id makes the commit fail
when a record for the appointment already exists; the except branch rolls
back, undoing the status change too. -/
def start_consultation (s : Store) (doctor_id appt_id : Nat)
    (diagnosis notes : String) : ConsultResult × Store :=
  match s.appts.find? (fun a => a.id == appt_id) with
  | none => (ConsultResult.notFound, s)
  | some a =>
    if a.doctor_id != doctor_id then
      (ConsultResult.accessDenied, s)
    else if !(a.status == Status.Booked || a.status == Status.Rescheduled ||
              a.status == Status.Pending) then
      (ConsultResult.invalidStatus, s)
    else if s.records.any (fun r => r.appointment_id == appt_id) then
      (ConsultResult.storeError, s)
    else
      let s1 := setStatus s appt_id Status.Completed
      (ConsultResult.success,
        { s1 with records := s1.records ++
            [{ id := nextRecordId s, appointment_id := appt_id,
               patient_id := a.patient_id, doctor_id := doctor_id,
               diagnosis := diagnosis, notes := notes,
               consultation_date := a.date }] })

/-- Lexicographic comparison of character lists by code point, the order
SQL BETWEEN applies to the text date columns. -/
def charListLe : List Char → List Char → Bool
  | [], _ => true
  | _ :: _, [] => false
  | a :: as, b :: bs =>
    if a < b then true else if b < a then false else charListLe as bs

/-- Lexicographic string comparison by code point, the order SQL BETWEEN
applies to the text date columns of the store. -/
def strLe (a b : String) : Bool := charListLe a.toList b.toList

/-- The availability query of find_doctors (src/app.py lines 433-436):
availability rows of the candidate doctors whose date lies between the
start and the end of the horizon, in table order. -/
def availBetween (s : Store) (docIds : List Nat) (startD endD : String) :
    List Avail :=
  s.avails.filter (fun r => docIds.contains r.doctor_id &&
    strLe startD r.date && strLe r.date endD)

/-- Membership of a (doctor, date, time) triple in the booked_slots_set of
find_doctors (src/app.py lines 439-449): the set holds the triples of the
candidate doctors' appointments inside the horizon whose status is Booked
or Completed, so membership is existence of such an appointment with that
triple. -/
def inBookedSlots (s : Store) (docIds : List Nat) (startD endD : String)
    (did : Nat) (date time : String) : Bool :=
  s.appts.any (fun a => docIds.contains a.doctor_id &&
    strLe startD a.date && strLe a.date endD &&
    (a.status == Status.Booked || a.status == Status.Completed) &&
    apptAtTriple did date time a)

/-- The availability_map lookup of find_doctors (src/app.py lines 452-463):
the map is built by iterating the availability query results and
overwriting on equal (doctor, date) keys, so the lookup for a cell yields
the last matching record, or none when the doctor published nothing for
the date. -/
def availLookup (s : Store) (docIds : List Nat) (startD endD : String)
    (did : Nat) (date : String) : Option Avail :=
  ((availBetween s docIds startD endD).filter
    (fun r => r.doctor_id == did && r.date == date)).getLast?

/-- One cell of the bookable_slots_map of find_doctors (src/app.py lines
458-476): with no availability record for the (doctor, date) cell the list
is empty; otherwise the 30-minute slots generated from the record's window
are kept exactly when their triple is not in the booked slots set.  none
models the request dying on a strptime error inside generate_slots. -/
def findDoctorsCell (s : Store) (docIds : List Nat) (startD endD : String)
    (did : Nat) (date : String) : Option (List String) :=
  match availLookup s docIds startD endD did date with
  | some record =>
    (generate_slots record.start_time record.end_time 30).map
      (fun slots => slots.filter
        (fun slot => !(inBookedSlots s docIds startD endD did date slot)))
  | none => some []

/-- The spec-side availability lookup for a (doctor, date) cell, over the
whole table: the last availability record the doctor published for the
date. -/
def availFor (s : Store) (did : Nat) (date : String) : Option Avail :=
  (s.avails.filter (fun r => r.doctor_id == did && r.date == date)).getLast?

/-- A booking or cancellation request, the operations quantified over by
the no-double-booking invariant. -/
inductive Op
  | book (patient_id : Nat) (doctor_id : Option Nat) (date time : Option String)
  | patientCancel (requester appt_id : Nat)
  | adminCancel (appt_id : Nat)
deriving DecidableEq, Repr

/-- The store reached by one operation, results discarded. -/
def stepOp (s : Store) (op : Op) : Store :=
  match op with
  | Op.book pid did d t => (book_appointment s pid did d t).2
  | Op.patientCancel req id => (patient_cancel_appointment s req id).2
  | Op.adminCancel id => (admin_cancel_appointment s id).2

/-- The store reached from the empty store by a sequence of booking and
cancellation operations. -/
def runOps (ops : List Op) : Store := ops.foldl stepOp emptyStore

/-- Number of appointment rows at a (doctor, date, time) triple, any
status. -/
def tripleCount (s : Store) (did : Nat) (date time : String) : Nat :=
  s.appts.countP (apptAtTriple did date time)

/-- Number of appointment rows at a (doctor, date, time) triple whose
status is in the strict occupying set Booked or Completed. -/
def occupyingCount (s : Store) (did : Nat) (date time : String) : Nat :=
  s.appts.countP (fun a => apptAtTriple did date time a &&
    (a.status == Status.Booked || a.status == Status.Completed))

/-- Store with a single Completed appointment occupying the triple of
doctor 1 at 09:00 on 2024-06-01. -/
def storeCompleted : Store :=
  ⟨[⟨1, 7, 1, "2024-06-01", "09:00", Status.Completed⟩], [], [], []⟩

/-- Witness store for C7: one availability window and one Booked
appointment for doctor 1 on 2024-06-01. -/
def storeC7 : Store :=
  ⟨[⟨1, 2, 1, "2024-06-01", "09:00", Status.Booked⟩],
   [⟨1, 1, "2024-06-01", "09:00", "10:00"⟩], [], []⟩

/-- Store for C4: doctor 1 published 09:00 to 10:00 on 2024-06-01 and the
only appointment at the 09:00 triple is Cancelled. -/
def storeCancelled : Store :=
  ⟨[⟨1, 7, 1, "2024-06-01", "09:00", Status.Cancelled⟩],
   [⟨1, 1, "2024-06-01", "09:00", "10:00"⟩], [], []⟩

/-- Store for C5: the appointment of doctor 2 has status Cancelled and no
treatment row exists for it. -/
def storeTerminal : Store :=
  ⟨[⟨1, 7, 2, "2024-06-01", "09:00", Status.Cancelled⟩], [], [], []⟩

/-- Store for C8: the appointment of patient 5 has status Pending. -/
def storePending : Store :=
  ⟨[⟨1, 5, 2, "2024-06-01", "09:00", Status.Pending⟩], [], [], []⟩

/-- Witness store for C8: appointment 1 is Booked and owned by
patient 5. -/
def storeBookedOwned : Store :=
  ⟨[⟨1, 5, 2, "2024-06-01", "09:00", Status.Booked⟩], [], [], []⟩

/-- Unfolding equation of the loop. -/
theorem generateSlotsLoop_eq (cur e i : Nat) :
    generateSlotsLoop cur e i =
      if 0 < i ∧ cur < e then cur :: generateSlotsLoop (cur + i) e i else [] := by
  rw [generateSlotsLoop]
  by_cases h : 0 < i ∧ cur < e <;> simp [h]

example : parseTime "09:00" = some 540 := rfl
example : parseTime "9:5" = some 545 := rfl
example : parseTime "24:00" = none := rfl
example : parseTime "09:00:00" = none := rfl
example : parseTime "" = none := rfl
example : formatTime 570 = "09:30" := rfl

/-- Closed form of the slot loop: it emits the arithmetic progression of
slot starts below the end time; the number of emitted slots is the number
of multiples k of the interval with cur + k below the end time, which is
the displayed ceiling division. -/
theorem generateSlotsLoop_closed (cur e i : Nat) :
    generateSlotsLoop cur e i =
      (List.range ((e - cur + i - 1) / i)).map (fun k => cur + k * i) := by
  induction cur, e, i using generateSlotsLoop.induct with
  | case1 cur e i h ih =>
    obtain ⟨hi, hlt⟩ := h
    rw [generateSlotsLoop_eq, if_pos ⟨hi, hlt⟩, ih]
    have hn : (e - cur + i - 1) / i = (e - (cur + i) + i - 1) / i + 1 := by
      rcases le_or_lt i (e - cur) with hca | hca
      · have hsplit : e - cur + i - 1 = (e - (cur + i) + i - 1) + i := by omega
        rw [hsplit, Nat.add_div_right _ hi]
      · have hz : e - (cur + i) = 0 := by omega
        have hz2 : (0 + i - 1) / i = 0 := Nat.div_eq_of_lt (by omega)
        rw [hz, hz2]
        exact Nat.div_eq_of_lt_le (by omega) (by omega)
    rw [hn, List.range_succ_eq_map, List.map_cons, List.map_map]
    simp only [Nat.zero_mul, Nat.add_zero]
    congr 1
    apply List.map_congr_left
    intro k _
    simp only [Function.comp_apply, Nat.succ_eq_add_one]
    ring
  | case2 cur e i h =>
    rw [generateSlotsLoop_eq, if_neg h]
    have hz : (e - cur + i - 1) / i = 0 := by
      rcases Nat.eq_zero_or_pos i with h0 | hi
      · simp [h0]
      · have hle : e ≤ cur := by
          by_contra hlt
          exact h ⟨hi, by omega⟩
        have : e - cur = 0 := by omega
        rw [this]
        exact Nat.div_eq_of_lt (by omega)
    rw [hz]
    rfl

/-- Counting bound used by the membership lemma: a multiple index is below
the ceiling division exactly when the slot start is below the end time. -/
theorem lt_ceil_div_iff (k d i : Nat) (hi : 0 < i) :
    k < (d + i - 1) / i ↔ k * i < d := by
  rw [Nat.lt_iff_add_one_le, Nat.le_div_iff_mul_le hi, Nat.add_mul, Nat.one_mul]
  have hx : 0 ≤ k * i := Nat.zero_le _
  omega

/-- Membership in the loop output: exactly the slot starts below the end
time, for a positive interval. -/
theorem mem_generateSlotsLoop (cur e i x : Nat) (hi : 0 < i) :
    x ∈ generateSlotsLoop cur e i ↔ ∃ k, x = cur + k * i ∧ x < e := by
  rw [generateSlotsLoop_closed]
  simp only [List.mem_map, List.mem_range]
  constructor
  · rintro ⟨k, hk, rfl⟩
    rw [lt_ceil_div_iff k (e - cur) i hi] at hk
    exact ⟨k, rfl, by omega⟩
  · rintro ⟨k, rfl, hk⟩
    refine ⟨k, ?_, rfl⟩
    rw [lt_ceil_div_iff k (e - cur) i hi]
    omega

/-- Consecutive elements of the loop output differ by exactly the
interval. -/
theorem chain_generateSlotsLoop (cur e i : Nat) :
    List.Chain' (fun a b => b = a + i) (generateSlotsLoop cur e i) := by
  induction cur, e, i using generateSlotsLoop.induct with
  | case1 cur e i h ih =>
    rw [generateSlotsLoop_eq, if_pos h]
    refine List.chain'_cons'.mpr ⟨?_, ih⟩
    intro y hy
    rw [generateSlotsLoop_eq] at hy
    by_cases h2 : 0 < i ∧ cur + i < e
    · rw [if_pos h2] at hy
      simpa using hy.symm
    · rw [if_neg h2] at hy
      simp at hy
  | case2 cur e i h =>
    rw [generateSlotsLoop_eq, if_neg h]
    exact List.chain'_nil

/-- The loop output starts at the start time when the window is
nonempty. -/
theorem head_generateSlotsLoop (cur e i : Nat) (hi : 0 < i) (hlt : cur < e) :
    (generateSlotsLoop cur e i).head? = some cur := by
  rw [generateSlotsLoop_eq, if_pos ⟨hi, hlt⟩]
  rfl

/-- Triple counts are unchanged by a status update: the update touches only
the status field of a row. -/
theorem tripleCount_setStatus (s : Store) (appt_id : Nat) (st : Status)
    (did : Nat) (date time : String) :
    tripleCount (setStatus s appt_id st) did date time
      = tripleCount s did date time := by
  unfold tripleCount setStatus
  simp only [List.countP_map]
  apply List.countP_congr
  intro a _
  by_cases h : (a.id == appt_id) = true <;>
    simp [Function.comp, h, apptAtTriple]

/-- The patient cancellation route either leaves the store unchanged or
performs exactly the single-row status update to Cancelled. -/
theorem patient_cancel_snd (s : Store) (req appt_id : Nat) :
    (patient_cancel_appointment s req appt_id).2 = s ∨
    (patient_cancel_appointment s req appt_id).2
      = setStatus s appt_id Status.Cancelled := by
  unfold patient_cancel_appointment
  cases s.appts.find? (fun a => a.id == appt_id) with
  | none => exact Or.inl rfl
  | some a =>
    cases hst : a.status <;> by_cases h1 : a.patient_id = req <;>
      first
        | (refine Or.inl ?_; simp [hst, h1]; done)
        | (refine Or.inr ?_; simp [hst, h1]; done)

/-- The administrator cancellation route either leaves the store unchanged
or performs exactly the single-row status update to Cancelled. -/
theorem admin_cancel_snd (s : Store) (appt_id : Nat) :
    (admin_cancel_appointment s appt_id).2 = s ∨
    (admin_cancel_appointment s appt_id).2
      = setStatus s appt_id Status.Cancelled := by
  unfold admin_cancel_appointment
  cases s.appts.find? (fun a => a.id == appt_id) with
  | none => exact Or.inl rfl
  | some a =>
    cases hst : a.status <;>
      first
        | (refine Or.inl ?_; simp [hst]; done)
        | (refine Or.inr ?_; simp [hst]; done)

/-- One booking or cancellation step keeps every triple's appointment row
count at or below one: a booking only commits when no row for its triple
exists, because the storage uniqueness constraint otherwise fails the
commit, and a cancellation only updates a status. -/
theorem tripleCount_stepOp (s : Store) (op : Op)
    (hs : ∀ d' dt' t', tripleCount s d' dt' t' ≤ 1) (d : Nat) (dt t : String) :
    tripleCount (stepOp s op) d dt t ≤ 1 := by
  cases op with
  | book pid did? date? time? =>
    rcases did? with _ | did
    · simpa [stepOp, book_appointment] using hs d dt t
    rcases date? with _ | date
    · simpa [stepOp, book_appointment] using hs d dt t
    rcases time? with _ | time
    · simpa [stepOp, book_appointment] using hs d dt t
    by_cases h1 : hasBookedAt s did date time = true
    · simpa [stepOp, book_appointment, h1] using hs d dt t
    by_cases h2 : anyApptAt s did date time = true
    · have h1' : hasBookedAt s did date time = false := by simpa using h1
      simpa [stepOp, book_appointment, h1', h2] using hs d dt t
    · have h1' : hasBookedAt s did date time = false := by simpa using h1
      have h2' : anyApptAt s did date time = false := by simpa using h2
      have hstep : (stepOp s (Op.book pid (some did) (some date) (some time))).appts
          = s.appts ++
            [{ id := nextApptId s, patient_id := pid, doctor_id := did,
               date := date, time := time, status := Status.Booked }] := by
        simp [stepOp, book_appointment, h1', h2']
      unfold tripleCount
      rw [hstep, List.countP_append]
      by_cases hp : apptAtTriple d dt t
          { id := nextApptId s, patient_id := pid, doctor_id := did,
            date := date, time := time, status := Status.Booked } = true
      · have hd : (did = d ∧ date = dt) ∧ time = t := by
          simpa [apptAtTriple] using hp
        obtain ⟨⟨rfl, rfl⟩, rfl⟩ := hd
        have hzero : s.appts.countP (apptAtTriple did date time) = 0 := by
          unfold anyApptAt at h2'
          rw [List.any_eq_false] at h2'
          rw [List.countP_eq_zero]
          intro a ha
          exact h2' a ha
        rw [hzero]
        simp [hp]
      · have hp' : apptAtTriple d dt t
            { id := nextApptId s, patient_id := pid, doctor_id := did,
              date := date, time := time, status := Status.Booked } = false := by
          simpa using hp
        have hone : List.countP (apptAtTriple d dt t)
            [{ id := nextApptId s, patient_id := pid, doctor_id := did,
               date := date, time := time, status := Status.Booked }] = 0 := by
          simp [List.countP_cons, hp']
        rw [hone]
        simpa using hs d dt t
  | patientCancel req id =>
    have hred : stepOp s (Op.patientCancel req id)
        = (patient_cancel_appointment s req id).2 := rfl
    rw [hred]
    rcases patient_cancel_snd s req id with h | h
    · rw [h]; exact hs d dt t
    · rw [h, tripleCount_setStatus]; exact hs d dt t
  | adminCancel id =>
    have hred : stepOp s (Op.adminCancel id)
        = (admin_cancel_appointment s id).2 := rfl
    rw [hred]
    rcases admin_cancel_snd s id with h | h
    · rw [h]; exact hs d dt t
    · rw [h, tripleCount_setStatus]; exact hs d dt t

/-- The triple row count invariant holds along every run from the empty
store. -/
theorem tripleCount_runOps (ops : List Op) (d : Nat) (dt t : String) :
    tripleCount (runOps ops) d dt t ≤ 1 := by
  suffices h : ∀ s, (∀ d' dt' t', tripleCount s d' dt' t' ≤ 1) →
      ∀ d' dt' t', tripleCount (ops.foldl stepOp s) d' dt' t' ≤ 1 by
    apply h emptyStore _ d dt t
    intro d' dt' t'
    simp [tripleCount, emptyStore]
  induction ops with
  | nil => intro s hsb d' dt' t'; exact hsb d' dt' t'
  | cons op rest ih =>
    intro s hsb d' dt' t'
    exact ih (stepOp s op) (fun x y z => tripleCount_stepOp s op hsb x y z) d' dt' t'

/-- C1: for every sequence of booking and cancellation operations starting
from an empty store and every (clinician, date, time) triple, at most one
appointment with status in the set of Booked and Completed exists for that
triple at any point; in fact at most one appointment row of any status
exists for the triple, because the storage uniqueness constraint blocks
every insert at an occupied triple. -/
theorem no_double_booking_invariant (ops : List Op) (did : Nat)
    (date time : String) :
    occupyingCount (runOps ops) did date time ≤ 1 := by
  have hmono : occupyingCount (runOps ops) did date time
      ≤ tripleCount (runOps ops) did date time := by
    unfold occupyingCount tripleCount
    apply List.countP_mono_left
    intro a _ h
    exact (Bool.and_eq_true _ _ ▸ h).1
  exact le_trans hmono (tripleCount_runOps ops did date time)

/-- C6: for a positive interval and a window whose start is below its end,
the slot generator loop returns exactly the times start plus a multiple of
the interval that are strictly below the end time, starts at the start
time, and consecutive elements differ by exactly the interval; the string
level generate_slots is the formatted image of this sequence. -/
theorem generate_slots_characterization (s e i : Nat) (hse : s < e)
    (hi : 0 < i) :
    (generateSlotsLoop s e i).head? = some s
    ∧ List.Chain' (fun a b => b = a + i) (generateSlotsLoop s e i)
    ∧ (∀ x, x ∈ generateSlotsLoop s e i ↔ ∃ k, x = s + k * i ∧ x < e)
    ∧ (∀ ss es, parseTime ss = some s → parseTime es = some e →
        generate_slots ss es i = some ((generateSlotsLoop s e i).map formatTime)) := by
  refine ⟨head_generateSlotsLoop s e i hi hse, chain_generateSlotsLoop s e i,
    fun x => mem_generateSlotsLoop s e i x hi, fun ss es hs he => ?_⟩
  unfold generate_slots
  rw [hs, he]

/-- Witness for C6 on the window 09:00 to 10:00 with a 30 minute
interval. -/
theorem generate_slots_characterization_witness :
    540 < 600 ∧ 0 < 30
    ∧ ((generateSlotsLoop 540 600 30).head? = some 540
       ∧ List.Chain' (fun a b => b = a + 30) (generateSlotsLoop 540 600 30)
       ∧ (∀ x, x ∈ generateSlotsLoop 540 600 30 ↔ ∃ k, x = 540 + k * 30 ∧ x < 600)
       ∧ (∀ ss es, parseTime ss = some 540 → parseTime es = some 600 →
           generate_slots ss es 30 = some ((generateSlotsLoop 540 600 30).map formatTime))) :=
  ⟨by decide, by decide, generate_slots_characterization 540 600 30 (by decide) (by decide)⟩

/-- C9: when the start time is at or after the end time the loop produces
the empty sequence for every interval, and on parseable time strings the
string level generate_slots returns an empty list rather than an error. -/
theorem generate_slots_degenerate (s e i : Nat) (h : e ≤ s) :
    generateSlotsLoop s e i = []
    ∧ (∀ ss es, parseTime ss = some s → parseTime es = some e →
        generate_slots ss es i = some []) := by
  have h1 : generateSlotsLoop s e i = [] := by
    rw [generateSlotsLoop_eq, if_neg]
    rintro ⟨_, hlt⟩
    omega
  refine ⟨h1, fun ss es hs he => ?_⟩
  unfold generate_slots
  rw [hs, he]
  show some ((generateSlotsLoop s e i).map formatTime) = some []
  rw [h1]
  rfl

/-- Witness for C9 on the degenerate window 10:00 to 10:00. -/
theorem generate_slots_degenerate_witness :
    600 ≤ 600
    ∧ (generateSlotsLoop 600 600 30 = []
       ∧ (∀ ss es, parseTime ss = some 600 → parseTime es = some 600 →
           generate_slots ss es 30 = some [])) :=
  ⟨by decide, generate_slots_degenerate 600 600 30 (by decide)⟩

/-- C10: for a positive interval the slot loop terminates, running exactly
the ceiling of the window length divided by the interval many iterations,
since each iteration strictly increases the current time by the interval;
the length of its output counts those iterations. -/
theorem generate_slots_loop_length (s e i : Nat) (_hi : 0 < i) :
    (generateSlotsLoop s e i).length = (e - s + i - 1) / i := by
  rw [generateSlotsLoop_closed, List.length_map, List.length_range]

/-- Witness for C10 on a window of 61 minutes with a 30 minute interval:
the loop runs three times. -/
theorem generate_slots_loop_length_witness :
    0 < 30 ∧ (generateSlotsLoop 540 601 30).length = (601 - 540 + 30 - 1) / 30 :=
  ⟨by decide, generate_slots_loop_length 540 601 30 (by decide)⟩

/-- Case analysis of the booking route at an occupied triple: the store is
unchanged, with a conflict error when a Booked appointment sits at the
triple, and a commit failure on the uniqueness constraint otherwise. -/
theorem book_occupied_cases (s : Store) (pid did : Nat) (d t : String)
    (h : occupiedStrict s did d t = true) :
    (book_appointment s pid (some did) (some d) (some t)).2 = s
    ∧ (hasBookedAt s did d t = true →
        (book_appointment s pid (some did) (some d) (some t)).1
          = BookResult.conflictError)
    ∧ (hasBookedAt s did d t = false →
        (book_appointment s pid (some did) (some d) (some t)).1
          = BookResult.storeError) := by
  have hany : anyApptAt s did d t = true := by
    unfold occupiedStrict at h
    unfold anyApptAt
    rw [List.any_eq_true] at h ⊢
    obtain ⟨a, ha, hpa⟩ := h
    rw [Bool.and_eq_true] at hpa
    exact ⟨a, ha, hpa.1⟩
  by_cases hb : hasBookedAt s did d t = true
  · refine ⟨?_, fun _ => ?_, fun hf => ?_⟩
    · simp [book_appointment, hb]
    · simp [book_appointment, hb]
    · rw [hb] at hf; cases hf
  · have hb' : hasBookedAt s did d t = false := by simpa using hb
    refine ⟨?_, fun ht => ?_, fun _ => ?_⟩
    · simp [book_appointment, hb', hany]
    · rw [ht] at hb'; cases hb'
    · simp [book_appointment, hb', hany]

/-- C2 counterexample: with a Completed appointment occupying the triple,
the commit-time re-check of book_appointment does not reject with the
conflict error, because it filters on status Booked only; the rejection
comes from the storage uniqueness constraint instead. -/
theorem commit_recheck_strict_counterexample :
    (∃ a ∈ storeCompleted.appts, a.doctor_id = 1 ∧ a.date = "2024-06-01"
      ∧ a.time = "09:00" ∧ a.status = Status.Completed)
    ∧ (book_appointment storeCompleted 2 (some 1) (some "2024-06-01")
        (some "09:00")).1 = BookResult.storeError
    ∧ BookResult.storeError ≠ BookResult.conflictError := by
  refine ⟨⟨storeCompleted.appts.head (by decide), by decide⟩, rfl, by decide⟩

/-- C2 (amended): the commit-time re-check of book_appointment filters on
the narrow occupying set holding only Booked; whenever an appointment with
status Booked or Completed exists at the triple no new appointment is
created, with a conflict error exactly when an appointment with status
Booked exists, and with a commit failure on the storage uniqueness
constraint when the triple is occupied by a Completed appointment but no
Booked one. -/
theorem commit_recheck_rejections (s : Store) (pid did : Nat) (d t : String)
    (h : occupiedStrict s did d t = true) :
    (book_appointment s pid (some did) (some d) (some t)).2 = s
    ∧ (hasBookedAt s did d t = true →
        (book_appointment s pid (some did) (some d) (some t)).1
          = BookResult.conflictError)
    ∧ (hasBookedAt s did d t = false →
        (book_appointment s pid (some did) (some d) (some t)).1
          = BookResult.storeError) :=
  book_occupied_cases s pid did d t h

/-- Witness for C2 at the store occupied by a Completed appointment. -/
theorem commit_recheck_rejections_witness :
    occupiedStrict storeCompleted 1 "2024-06-01" "09:00" = true
    ∧ ((book_appointment storeCompleted 2 (some 1) (some "2024-06-01")
          (some "09:00")).2 = storeCompleted
       ∧ (hasBookedAt storeCompleted 1 "2024-06-01" "09:00" = true →
           (book_appointment storeCompleted 2 (some 1) (some "2024-06-01")
             (some "09:00")).1 = BookResult.conflictError)
       ∧ (hasBookedAt storeCompleted 1 "2024-06-01" "09:00" = false →
           (book_appointment storeCompleted 2 (some 1) (some "2024-06-01")
             (some "09:00")).1 = BookResult.storeError)) :=
  ⟨by decide, commit_recheck_rejections storeCompleted 2 1 "2024-06-01" "09:00" (by decide)⟩

/-- For a doctor in the candidate set and a date inside the horizon, the
availability lookup of find_doctors agrees with the lookup over the whole
availability table. -/
theorem availLookup_eq_availFor (s : Store) (docIds : List Nat)
    (startD endD : String) (did : Nat) (date : String)
    (hdoc : docIds.contains did = true)
    (h1 : strLe startD date = true) (h2 : strLe date endD = true) :
    availLookup s docIds startD endD did date = availFor s did date := by
  unfold availLookup availFor availBetween
  rw [List.filter_filter]
  congr 1
  apply List.filter_congr
  intro r _
  by_cases hd : (r.doctor_id == did) = true
  · by_cases hdt : (r.date == date) = true
    · have e1 : r.doctor_id = did := by simpa using hd
      have e2 : r.date = date := by simpa using hdt
      have b1 : strLe startD r.date = true := by rw [e2]; exact h1
      have b2 : strLe r.date endD = true := by rw [e2]; exact h2
      have b3 : docIds.contains r.doctor_id = true := by rw [e1]; exact hdoc
      rw [hd, hdt, b1, b2, b3]
      rfl
    · have hdt' : (r.date == date) = false := by simpa using hdt
      simp [hdt']
  · have hd' : (r.doctor_id == did) = false := by simpa using hd
    simp [hd']

/-- For a doctor in the candidate set and a date inside the horizon,
membership in the booked slots set of find_doctors agrees with the strict
occupying check over the whole appointment table. -/
theorem inBookedSlots_eq_occupiedStrict (s : Store) (docIds : List Nat)
    (startD endD : String) (did : Nat) (date : String)
    (hdoc : docIds.contains did = true)
    (h1 : strLe startD date = true) (h2 : strLe date endD = true) (tm : String) :
    inBookedSlots s docIds startD endD did date tm
      = occupiedStrict s did date tm := by
  unfold inBookedSlots occupiedStrict
  congr 1
  funext a
  unfold apptAtTriple
  by_cases hd : (a.doctor_id == did) = true
  · by_cases hdt : (a.date == date) = true
    · have e1 : a.doctor_id = did := by simpa using hd
      have e2 : a.date = date := by simpa using hdt
      have b1 : strLe startD a.date = true := by rw [e2]; exact h1
      have b2 : strLe a.date endD = true := by rw [e2]; exact h2
      have b3 : docIds.contains a.doctor_id = true := by rw [e1]; exact hdoc
      rw [hd, hdt, b1, b2, b3]
      cases htm : (a.time == tm) <;>
        cases hst : (a.status == Status.Booked || a.status == Status.Completed) <;>
          simp
    · have hdt' : (a.date == date) = false := by simpa using hdt
      rw [hdt']
      simp
  · have hd' : (a.doctor_id == did) = false := by simpa using hd
    rw [hd']
    simp

/-- Characterization of one bookable cell of find_doctors for a doctor in
the candidate set and a date inside the horizon: no availability record
yields the empty list, and a record yields the generated slots filtered by
the strict occupying check. -/
theorem findDoctorsCell_char (s : Store) (docIds : List Nat)
    (startD endD : String) (did : Nat) (date : String)
    (hdoc : docIds.contains did = true)
    (h1 : strLe startD date = true) (h2 : strLe date endD = true) :
    findDoctorsCell s docIds startD endD did date =
      (match availFor s did date with
       | some r => (generate_slots r.start_time r.end_time 30).map
           (fun slots => slots.filter
             (fun slot => !(occupiedStrict s did date slot)))
       | none => some []) := by
  unfold findDoctorsCell
  rw [availLookup_eq_availFor s docIds startD endD did date hdoc h1 h2]
  cases availFor s did date with
  | none => rfl
  | some r =>
    show (generate_slots r.start_time r.end_time 30).map
        (fun slots => slots.filter
          (fun slot => !(inBookedSlots s docIds startD endD did date slot)))
      = (generate_slots r.start_time r.end_time 30).map
        (fun slots => slots.filter
          (fun slot => !(occupiedStrict s did date slot)))
    have hfun : ∀ slot, (!(inBookedSlots s docIds startD endD did date slot))
        = (!(occupiedStrict s did date slot)) := fun slot => by
      rw [inBookedSlots_eq_occupiedStrict s docIds startD endD did date hdoc h1 h2 slot]
    simp only [hfun]

/-- C7: for a candidate clinician and a date of the horizon, the bookable
cell of find_doctors is empty when the clinician published no availability
for that date, and otherwise is the slot generator output over the
window's start and end times with every slot removed whose triple carries
an appointment with status Booked or Completed, the remainder staying in
generated order. -/
theorem bookable_cell_spec (s : Store) (docIds : List Nat)
    (startD endD : String) (did : Nat) (date : String)
    (hdoc : docIds.contains did = true)
    (h1 : strLe startD date = true) (h2 : strLe date endD = true) :
    (availFor s did date = none →
      findDoctorsCell s docIds startD endD did date = some [])
    ∧ (∀ r, availFor s did date = some r →
        findDoctorsCell s docIds startD endD did date =
          (generate_slots r.start_time r.end_time 30).map
            (fun slots => slots.filter
              (fun slot => !(occupiedStrict s did date slot)))) := by
  have hc := findDoctorsCell_char s docIds startD endD did date hdoc h1 h2
  constructor
  · intro hnone
    rw [hc, hnone]
  · intro r hr
    rw [hc, hr]

/-- Witness for C7 at a concrete store, doctor and horizon. -/
theorem bookable_cell_spec_witness :
    [1].contains 1 = true
    ∧ strLe "2024-06-01" "2024-06-01" = true
    ∧ strLe "2024-06-01" "2024-06-08" = true
    ∧ ((availFor storeC7 1 "2024-06-01" = none →
         findDoctorsCell storeC7 [1] "2024-06-01" "2024-06-08" 1 "2024-06-01"
           = some [])
       ∧ (∀ r, availFor storeC7 1 "2024-06-01" = some r →
           findDoctorsCell storeC7 [1] "2024-06-01" "2024-06-08" 1 "2024-06-01" =
             (generate_slots r.start_time r.end_time 30).map
               (fun slots => slots.filter
                 (fun slot => !(occupiedStrict storeC7 1 "2024-06-01" slot))))) :=
  ⟨by decide, by decide, by decide,
   bookable_cell_spec storeC7 [1] "2024-06-01" "2024-06-08" 1 "2024-06-01"
     (by decide) (by decide) (by decide)⟩

/-- Concrete evaluation of the generator on the 09:00 to 10:00 window with
the default 30 minute interval. -/
theorem gen_0900_1000 :
    generate_slots "09:00" "10:00" 30 = some ["09:00", "09:30"] := by
  have h1 : parseTime "09:00" = some 540 := rfl
  have h2 : parseTime "10:00" = some 600 := rfl
  have h3 : generateSlotsLoop 540 600 30 = [540, 570] := by
    rw [generateSlotsLoop_closed]
    rfl
  unfold generate_slots
  rw [h1, h2]
  show some ((generateSlotsLoop 540 600 30).map formatTime) = some ["09:00", "09:30"]
  rw [h3]
  rfl

/-- C3 counterexample: on the empty store the bookable listing cell of
doctor 1 for 2024-06-03 is empty, so the 09:00 slot is absent from it, yet
booking that triple succeeds and creates a Booked appointment, because
book_appointment never validates the requested time against the published
availability. -/
theorem book_unlisted_slot_counterexample :
    findDoctorsCell emptyStore [1] "2024-06-01" "2024-06-08" 1 "2024-06-03"
      = some []
    ∧ ("09:00" ∈ ([] : List String) → False)
    ∧ (book_appointment emptyStore 1 (some 1) (some "2024-06-03")
        (some "09:00")).1 = BookResult.success
    ∧ hasBookedAt (book_appointment emptyStore 1 (some 1) (some "2024-06-03")
        (some "09:00")).2 1 "2024-06-03" "09:00" = true := by
  refine ⟨rfl, by decide, rfl, rfl⟩

/-- C3 (amended): booking a slot that the clinician's availability window
for the date does generate but that is absent from the bookable listing
computed on the same state is rejected, with a conflict error or a commit
failure on the storage uniqueness constraint, and never creates a Booked
appointment; a slot absent from the listing merely because no availability
window generates it can still be booked when its triple carries no
appointment. -/
theorem book_generated_unlisted_slot_rejected (s : Store) (docIds : List Nat)
    (startD endD : String) (pid did : Nat) (date slot : String)
    (hdoc : docIds.contains did = true)
    (h1 : strLe startD date = true) (h2 : strLe date endD = true)
    (r : Avail) (hr : availFor s did date = some r)
    (slots : List String)
    (hgen : generate_slots r.start_time r.end_time 30 = some slots)
    (hin : slot ∈ slots)
    (l : List String)
    (hcell : findDoctorsCell s docIds startD endD did date = some l)
    (habs : slot ∉ l) :
    (book_appointment s pid (some did) (some date) (some slot)).2 = s
    ∧ ((book_appointment s pid (some did) (some date) (some slot)).1
          = BookResult.conflictError
       ∨ (book_appointment s pid (some did) (some date) (some slot)).1
          = BookResult.storeError) := by
  have hc := findDoctorsCell_char s docIds startD endD did date hdoc h1 h2
  rw [hc, hr] at hcell
  have hcell2 : (generate_slots r.start_time r.end_time 30).map
      (fun slots => slots.filter (fun t => !(occupiedStrict s did date t)))
      = some l := hcell
  rw [hgen] at hcell2
  have hl : l = slots.filter (fun t => !(occupiedStrict s did date t)) := by
    simpa using hcell2.symm
  have hocc : occupiedStrict s did date slot = true := by
    by_contra hne
    have hocc' : occupiedStrict s did date slot = false := by simpa using hne
    apply habs
    rw [hl]
    refine List.mem_filter.mpr ⟨hin, ?_⟩
    rw [hocc']
    rfl
  obtain ⟨hunch, hcf, hsf⟩ := book_occupied_cases s pid did date slot hocc
  refine ⟨hunch, ?_⟩
  by_cases hb : hasBookedAt s did date slot = true
  · exact Or.inl (hcf hb)
  · exact Or.inr (hsf (by simpa using hb))

/-- Witness for C3 at the store of one availability window and one Booked
appointment: the 09:00 slot is generated but occupied, hence unlisted, and
booking it is rejected with the store unchanged. -/
theorem book_generated_unlisted_slot_rejected_witness :
    [1].contains 1 = true
    ∧ strLe "2024-06-01" "2024-06-01" = true
    ∧ strLe "2024-06-01" "2024-06-08" = true
    ∧ availFor storeC7 1 "2024-06-01"
        = some ⟨1, 1, "2024-06-01", "09:00", "10:00"⟩
    ∧ generate_slots "09:00" "10:00" 30 = some ["09:00", "09:30"]
    ∧ "09:00" ∈ ["09:00", "09:30"]
    ∧ findDoctorsCell storeC7 [1] "2024-06-01" "2024-06-08" 1 "2024-06-01"
        = some ["09:30"]
    ∧ "09:00" ∉ ["09:30"]
    ∧ ((book_appointment storeC7 3 (some 1) (some "2024-06-01")
          (some "09:00")).2 = storeC7
       ∧ ((book_appointment storeC7 3 (some 1) (some "2024-06-01")
            (some "09:00")).1 = BookResult.conflictError
          ∨ (book_appointment storeC7 3 (some 1) (some "2024-06-01")
              (some "09:00")).1 = BookResult.storeError)) := by
  have hcell : findDoctorsCell storeC7 [1] "2024-06-01" "2024-06-08" 1 "2024-06-01"
      = some ["09:30"] := by
    show (generate_slots "09:00" "10:00" 30).map
        (fun slots => slots.filter
          (fun slot => !(inBookedSlots storeC7 [1] "2024-06-01" "2024-06-08"
            1 "2024-06-01" slot)))
      = some ["09:30"]
    rw [gen_0900_1000]
    rfl
  refine ⟨by decide, by decide, by decide, rfl, gen_0900_1000, by decide, hcell,
    by decide, ?_⟩
  exact book_generated_unlisted_slot_rejected storeC7 [1] "2024-06-01" "2024-06-08"
    3 1 "2024-06-01" "09:00" (by decide) (by decide) (by decide)
    ⟨1, 1, "2024-06-01", "09:00", "10:00"⟩ rfl
    ["09:00", "09:30"] gen_0900_1000 (by decide)
    ["09:30"] hcell (by decide)

/-- C4: with the only appointment at the triple Cancelled and the slot
inside the published window, the next listing offers the slot again, but
booking it fails: the pre-check passes, yet the storage uniqueness
constraint on (doctor_id, date, time) is not scoped to non-cancelled
appointments, so the insert violates it and the commit is rolled back. -/
theorem cancelled_slot_listed_but_unbookable :
    statusOf storeCancelled 1 = some Status.Cancelled
    ∧ findDoctorsCell storeCancelled [1] "2024-06-01" "2024-06-08" 1 "2024-06-01"
        = some ["09:00", "09:30"]
    ∧ book_appointment storeCancelled 2 (some 1) (some "2024-06-01")
        (some "09:00") = (BookResult.storeError, storeCancelled) := by
  refine ⟨rfl, ?_, rfl⟩
  show (generate_slots "09:00" "10:00" 30).map
      (fun slots => slots.filter
        (fun slot => !(inBookedSlots storeCancelled [1] "2024-06-01" "2024-06-08"
          1 "2024-06-01" slot)))
    = some ["09:00", "09:30"]
  rw [gen_0900_1000]
  rfl

/-- C5: complete_appointment checks only ownership, not the current
status, so posting it on a Cancelled appointment succeeds and moves the
status from the terminal Cancelled back to Completed, contradicting
terminality; the start_consultation route does guard the status, but this
sibling route does not. -/
theorem complete_appointment_escapes_terminal :
    statusOf storeTerminal 1 = some Status.Cancelled
    ∧ (complete_appointment storeTerminal 2 1 "flu" "rest" "notes").1
        = ConsultResult.success
    ∧ statusOf (complete_appointment storeTerminal 2 1 "flu" "rest" "notes").2 1
        = some Status.Completed := by
  refine ⟨rfl, rfl, rfl⟩

/-- C8 counterexample: the owning patient cancelling their Pending
appointment is rejected, although the claim places Pending in the
cancellable set; the patient route accepts only Booked and Rescheduled. -/
theorem patient_cancel_pending_counterexample :
    statusOf storePending 1 = some Status.Pending
    ∧ patient_cancel_appointment storePending 5 1
        = (CancelResult.invalidStatus, storePending)
    ∧ CancelResult.invalidStatus ≠ CancelResult.success := by
  refine ⟨rfl, rfl, by decide⟩

/-- C8 (amended): cancellation by the owning patient succeeds exactly from
status Booked or Rescheduled, and by an administrator exactly from status
Booked, in which case the status becomes Cancelled; every other current
status, Pending included, is rejected and leaves the store unchanged. -/
theorem cancellation_status_rules (s : Store) (req appt_id : Nat) (a : Appt)
    (hfind : s.appts.find? (fun x => x.id == appt_id) = some a) :
    (a.patient_id = req →
      (a.status = Status.Booked ∨ a.status = Status.Rescheduled) →
      patient_cancel_appointment s req appt_id
        = (CancelResult.success, setStatus s appt_id Status.Cancelled))
    ∧ (¬(a.status = Status.Booked ∨ a.status = Status.Rescheduled) →
        (patient_cancel_appointment s req appt_id).2 = s
        ∧ (patient_cancel_appointment s req appt_id).1 ≠ CancelResult.success)
    ∧ (a.status = Status.Booked →
        admin_cancel_appointment s appt_id
          = (CancelResult.success, setStatus s appt_id Status.Cancelled))
    ∧ (a.status ≠ Status.Booked →
        admin_cancel_appointment s appt_id = (CancelResult.invalidStatus, s)) := by
  refine ⟨fun hown hst => ?_, fun hst => ?_, fun hst => ?_, fun hst => ?_⟩
  · unfold patient_cancel_appointment
    rw [hfind]
    rcases hst with h | h <;> simp [hown, h]
  · unfold patient_cancel_appointment
    rw [hfind]
    by_cases hown : a.patient_id = req
    · cases hs2 : a.status <;> simp [hown, hs2] <;> simp [hs2] at hst
    · simp [hown]
  · unfold admin_cancel_appointment
    rw [hfind]
    simp [hst]
  · unfold admin_cancel_appointment
    rw [hfind]
    cases hs2 : a.status <;> simp [hs2] <;> simp [hs2] at hst

/-- Witness for C8 applying the rules at the Booked appointment. -/
theorem cancellation_status_rules_witness :
    storeBookedOwned.appts.find? (fun x => x.id == 1)
      = some ⟨1, 5, 2, "2024-06-01", "09:00", Status.Booked⟩
    ∧ (((⟨1, 5, 2, "2024-06-01", "09:00", Status.Booked⟩ : Appt).patient_id = 5 →
        ((⟨1, 5, 2, "2024-06-01", "09:00", Status.Booked⟩ : Appt).status = Status.Booked
          ∨ (⟨1, 5, 2, "2024-06-01", "09:00", Status.Booked⟩ : Appt).status = Status.Rescheduled) →
        patient_cancel_appointment storeBookedOwned 5 1
          = (CancelResult.success, setStatus storeBookedOwned 1 Status.Cancelled))
      ∧ (¬((⟨1, 5, 2, "2024-06-01", "09:00", Status.Booked⟩ : Appt).status = Status.Booked
            ∨ (⟨1, 5, 2, "2024-06-01", "09:00", Status.Booked⟩ : Appt).status = Status.Rescheduled) →
          (patient_cancel_appointment storeBookedOwned 5 1).2 = storeBookedOwned
          ∧ (patient_cancel_appointment storeBookedOwned 5 1).1 ≠ CancelResult.success)
      ∧ ((⟨1, 5, 2, "2024-06-01", "09:00", Status.Booked⟩ : Appt).status = Status.Booked →
          admin_cancel_appointment storeBookedOwned 1
            = (CancelResult.success, setStatus storeBookedOwned 1 Status.Cancelled))
      ∧ ((⟨1, 5, 2, "2024-06-01", "09:00", Status.Booked⟩ : Appt).status ≠ Status.Booked →
          admin_cancel_appointment storeBookedOwned 1
            = (CancelResult.invalidStatus, storeBookedOwned))) :=
  ⟨rfl, cancellation_status_rules storeBookedOwned 5 1
    ⟨1, 5, 2, "2024-06-01", "09:00", Status.Booked⟩ rfl⟩

end HMS
